import Mathlib

/-!
Verification development for the Puddle request-routing and
WebSocket connection-management layer.

The TypeScript sources are embedded shallowly:

* JavaScript values that flow through the attribute bags are modelled by
  `JSVal`, keeping the truthiness coercion that the source relies on.
* The `Map` used for attributes and the integer-keyed object used for the
  client registry are modelled as association lists; the registry keeps its
  entries in ascending key order, matching JavaScript enumeration order for
  integer-like keys.
* `WebSocket.send` on the platform does not raise for a closing or closed
  socket (the frame is silently discarded), so a per-target write is modelled
  as an always-recorded attempt together with a delivery that happens only
  when the target socket is open.
* Mutation is made explicit: methods that mutate an object return the updated
  object, and socket writes are accumulated in an explicit log.
-/

namespace Puddle

/-- JavaScript value stored in a client attribute bag.  Only the shape needed
for the truthiness test performed by `getClientsByAttribute` is kept. -/
inductive JSVal where
  | vNull
  | vUndefined
  | vBool (b : Bool)
  | vNum (n : Int)
  | vStr (s : String)
deriving DecidableEq

/-- JavaScript truthiness of a `JSVal` (`Boolean(v)`). -/
def JSVal.truthy : JSVal → Bool
  | .vNull => false
  | .vUndefined => false
  | .vBool b => b
  | .vNum n => n != 0
  | .vStr s => s != ""

/-- Outbound payload: `string | ArrayBufferLike | Blob | ArrayBufferView`.
Binary payloads are objects and hence always truthy; only the empty string is
falsy. -/
inductive Payload where
  | str (s : String)
  | bin (n : Nat)
deriving DecidableEq

/-- JavaScript truthiness of a payload. -/
def Payload.truthy : Payload → Bool
  | .str s => s != ""
  | .bin _ => true

/-- The underlying transport socket: an identifying handle plus whether the
transport currently accepts frames.  A write to a socket that is not open
fails (the frame is discarded) but, per the platform WebSocket contract, does
not raise. -/
structure Socket where
  handle : Nat
  isOpen : Bool
deriving DecidableEq

/-- The immutable identity of a client: its id and its socket.  The parts of
a `WebSocketClient` reference that `send` and the target list read. -/
structure ClientCore where
  id : Nat
  webSocket : Socket
deriving DecidableEq

/-- One connected client (`WebSocketClient` instance fields). -/
structure WebSocketClient where
  core : ClientCore
  url : String
  pathVariables : List (String × String)
  attributes : List (String × JSVal)
  message : Payload
  sendTargets : List ClientCore
deriving DecidableEq

/-- Association-list update with JavaScript `Map.set` semantics: an existing
key is updated in place, a new key is appended. -/
def mapSet (m : List (String × JSVal)) (key : String) (value : JSVal) :
    List (String × JSVal) :=
  if m.any (fun p => p.1 == key) then
    m.map (fun p => if p.1 == key then (key, value) else p)
  else
    m ++ [(key, value)]

/-- Integer-keyed JavaScript object, kept in ascending key order (the order in
which JavaScript enumerates integer-like keys). -/
abbrev ObjMap (α : Type) : Type := List (Nat × α)

/-- Assignment `obj[k] = v` on an integer-keyed object. -/
def ObjMap.set {α : Type} : ObjMap α → Nat → α → ObjMap α
  | [], k, v => [(k, v)]
  | (k₀, v₀) :: rest, k, v =>
    if k < k₀ then (k, v) :: (k₀, v₀) :: rest
    else if k = k₀ then (k, v) :: rest
    else (k₀, v₀) :: ObjMap.set rest k v

/-- Lookup `obj[k]`, `none` standing for `undefined`. -/
def ObjMap.get? {α : Type} (m : ObjMap α) (k : Nat) : Option α :=
  (m.find? (fun e => e.1 == k)).map (fun e => e.2)

/-- Deletion `delete obj[k]`. -/
def ObjMap.del {α : Type} (m : ObjMap α) (k : Nat) : ObjMap α :=
  m.filter (fun e => e.1 != k)

/-- Enumeration `Object.values(obj)`. -/
def ObjMap.values {α : Type} (m : ObjMap α) : List α :=
  m.map (fun e => e.2)

/-- The process-wide static state of the `WebSocketClient` class:
`lastInsertedId` and the registry `list`. -/
structure GlobalState where
  lastInsertedId : Nat
  list : ObjMap WebSocketClient
deriving DecidableEq

/-- The initial static state: `lastInsertedId = 0`, empty registry. -/
def GlobalState.initial : GlobalState := ⟨0, []⟩

namespace WebSocketClient

/-- The `WebSocketClient` constructor: assigns `lastInsertedId` as the id,
increments `lastInsertedId`, starts with an empty attribute map, empty
message and empty target list, and registers the client in `list`. -/
def construct (g : GlobalState) (webSocket : Socket) (url : String)
    (vars : List (String × String)) : WebSocketClient × GlobalState :=
  let c : WebSocketClient :=
    { core := { id := g.lastInsertedId, webSocket := webSocket }
      url := url
      pathVariables := vars
      attributes := []
      message := .str ""
      sendTargets := [] }
  (c, { lastInsertedId := g.lastInsertedId + 1
        list := ObjMap.set g.list c.core.id c })

/-- Modelled from the spec: the close-time unregistration
(`ClientRegistry.unregister`, performed by the socket-close glue in the
missing `mod.ts`) removes the registry entry for the id and touches nothing
else; removing an absent id is a no-op. -/
def unregister (g : GlobalState) (id : Nat) : GlobalState :=
  { g with list := ObjMap.del g.list id }

/-- Getter `getAttribute(key)`: `Map.get`, `none` for `undefined`. -/
def getAttribute (c : WebSocketClient) (key : String) : Option JSVal :=
  (c.attributes.find? (fun p => p.1 == key)).map (fun p => p.2)

/-- Setter `setAttribute(key, value)`. -/
def setAttribute (c : WebSocketClient) (key : String) (value : JSVal) :
    WebSocketClient :=
  { c with attributes := mapSet c.attributes key value }

/-- Removal `removeAttribute(key)`: returns the removed value and deletes the
key from the attribute map. -/
def removeAttribute (c : WebSocketClient) (key : String) :
    Option JSVal × WebSocketClient :=
  (getAttribute c key,
   { c with attributes := c.attributes.filter (fun p => p.1 != key) })

/-- Truthiness of `client.getAttribute(key)`: `undefined` is falsy, otherwise
the stored value's own truthiness. -/
def attrTruthy (c : WebSocketClient) (key : String) : Bool :=
  match getAttribute c key with
  | none => false
  | some v => v.truthy

/-- Lookup `getClientById(id)` over the registry. -/
def getClientById (g : GlobalState) (id : Nat) : Option WebSocketClient :=
  ObjMap.get? g.list id

/-- Enumeration `getAllClients()` = `Object.values(WebSocketClient.list)`. -/
def getAllClients (g : GlobalState) : List WebSocketClient :=
  ObjMap.values g.list

/-- Count `concurrentConnections` = `Object.keys(WebSocketClient.list).length`. -/
def concurrentConnections (g : GlobalState) : Nat :=
  g.list.length

/-- Selection `getClientsByAttribute(...attributes)`: keeps the clients for
which at least one attribute set has no key whose stored value is falsy
(missing counts as falsy), written with the same filter/length structure as
the source. -/
def getClientsByAttribute (g : GlobalState)
    (attributes : List (List (String × JSVal))) : List WebSocketClient :=
  let allClients := getAllClients g
  allClients.filter (fun client =>
    (attributes.filter (fun attrSet =>
      ((attrSet.map (fun p => p.1)).filter
        (fun key => !(attrTruthy client key))).length == 0)).length != 0)

/-- Setter `setMessage(message)`. -/
def setMessage (c : WebSocketClient) (message : Payload) : WebSocketClient :=
  { c with message := message }

/-- Setter `to(clients)` (named `toClients` here because `to` is reserved):
overwrites the send-target list. -/
def toClients (c : WebSocketClient) (clients : List ClientCore) : WebSocketClient :=
  { c with sendTargets := clients }

end WebSocketClient

/-- The observable effect of socket writes: the sequence of write attempts
(each call to `webSocket.send`, as handle/payload pairs, in call order) and
the subsequence actually delivered (attempts on open sockets). -/
structure SendLog where
  attempts : List (Nat × Payload)
  delivered : List (Nat × Payload)
deriving DecidableEq

/-- The empty log. -/
def SendLog.empty : SendLog := ⟨[], []⟩

/-- One call `socket.send(message)`: always recorded as an attempt; delivered
only when the socket is open, and never raises (a closed target discards the
frame silently). -/
def socketWrite (log : SendLog) (s : Socket) (message : Payload) : SendLog :=
  { attempts := log.attempts ++ [(s.handle, message)]
    delivered :=
      if s.isOpen then log.delivered ++ [(s.handle, message)]
      else log.delivered }

namespace WebSocketClient

/-- Static `WebSocketClient.send(clients, message)`:
`clients.forEach(client => client.webSocket.send(message))`. -/
def send (clients : List ClientCore) (message : Payload) (log : SendLog) :
    SendLog :=
  clients.foldl (fun l c => socketWrite l c.webSocket message) log

/-- JavaScript `a || b` for an optional array argument: `undefined` is falsy
and every array object is truthy. -/
def jsOrTargets (clients : Option (List ClientCore))
    (fallback : List ClientCore) : List ClientCore :=
  match clients with
  | none => fallback
  | some cs => cs

/-- JavaScript `a || b` for an optional payload argument: `undefined` and the
empty string are falsy; any other payload is truthy. -/
def jsOrPayload (message : Option Payload) (fallback : Payload) : Payload :=
  match message with
  | none => fallback
  | some m => if m.truthy then m else fallback

/-- Instance `send(clients?, message?)`:
`WebSocketClient.send(clients || this.#to, message || this.#message)`.
The receiver is returned unchanged alongside the write log, making explicit
that the method assigns to no field. -/
def sendInstance (c : WebSocketClient) (clients : Option (List ClientCore))
    (message : Option Payload) (log : SendLog) : WebSocketClient × SendLog :=
  (c, send (jsOrTargets clients c.sendTargets)
        (jsOrPayload message c.message) log)

/-- Instance `reply(message?)`: `this.send([this], message)`. -/
def reply (c : WebSocketClient) (message : Option Payload) (log : SendLog) :
    WebSocketClient × SendLog :=
  sendInstance c (some [c.core]) message log

end WebSocketClient

/-- One lifecycle event touching the process-wide client state: a socket-open
(which constructs and registers a client) or a socket-close (which
unregisters one). -/
inductive RegOp where
  | openConn (webSocket : Socket) (url : String) (vars : List (String × String))
  | closeConn (id : Nat)
deriving DecidableEq

/-- Effect of one lifecycle event on the static state. -/
def GlobalState.step (g : GlobalState) : RegOp → GlobalState
  | .openConn ws url vars => (WebSocketClient.construct g ws url vars).2
  | .closeConn id => WebSocketClient.unregister g id

/-- Effect of a trace of lifecycle events on the static state. -/
def GlobalState.run (g : GlobalState) : List RegOp → GlobalState
  | [] => g
  | op :: ops => (g.step op).run ops

/-- The client ids handed out by the constructor along a trace of lifecycle
events, in construction order. -/
def assignedIds (g : GlobalState) : List RegOp → List Nat
  | [] => []
  | .openConn ws url vars :: ops =>
    g.lastInsertedId :: assignedIds (g.step (.openConn ws url vars)) ops
  | .closeConn id :: ops => assignedIds (g.step (.closeConn id)) ops

/-- Modelled from the spec: the `Route` entry of the missing `Router.ts` —
a canonical path together with the match-key array returned by `URL()`.
The five HTTP handler slots play no role in the match-key claims and are
omitted. -/
structure Route where
  path : String
  urls : List String
deriving DecidableEq

/-- Deduplication keeping the first occurrence of each string. -/
def dedupFirst : List String → List String
  | [] => []
  | x :: xs => x :: (dedupFirst xs).filter (fun y => y ≠ x)

namespace RouteTable

/-- Whether some already-registered entry with a different canonical path
owns the given match key. -/
def keyOwnedByOther (table : List Route) (path key : String) : Bool :=
  table.any (fun r => r.path != path && r.urls.contains key)

/-- Modelled from the spec: `getUniqueUrlArray` of the missing `Router.ts`.
The candidate match-key set is the deduplicated aliases with the canonical
path appended; every candidate already owned by a different entry is dropped
(first registration wins), except that the canonical path itself is always
kept. -/
def getUniqueUrlArray (table : List Route) (path : String)
    (aliases : List String) : List String :=
  (dedupFirst (aliases ++ [path])).filter
    (fun u => u == path || !(keyOwnedByOther table path u))

/-- Modelled from the spec: registration of a route.  The new entry keeps its
unclaimed keys plus its canonical path; an entry already stored at the same
canonical path is replaced wholesale, otherwise the entry is appended. -/
def register (table : List Route) (path : String) (aliases : List String) :
    Route × List Route :=
  let r : Route := { path := path, urls := getUniqueUrlArray table path aliases }
  (r, if table.any (fun e => e.path == path) then
        table.map (fun e => if e.path == path then r else e)
      else table ++ [r])

/-- Modelled from the spec: `resolve` is an exact-match lookup against the
match keys; since conflicting keys are dropped at registration, the owner of
a key is the first entry whose match-key array contains it. -/
def resolve (table : List Route) (key : String) : Option Route :=
  table.find? (fun r => r.urls.contains key)

end RouteTable

/-- What `SystemResponse.send` passes to the outside world: model the
`#respondWith` calls by counting them (the claim under study is about whether
the callback fires again, not about the response contents). -/
structure SystemResponse where
  responded : Bool
  status : Nat
  body : String
  headers : List (String × String)
  isForceDownload : Bool
  initStatus : Option Nat
  respondCount : Nat
deriving DecidableEq

/-- The argument of `send`: absent, a string, or a prebuilt `Response`
(identified by an opaque tag). -/
inductive SendArg where
  | strArg (s : String)
  | resArg (n : Nat)
deriving DecidableEq

/-- Header update with `Headers.set` semantics: replace in place when the
name exists, append otherwise. -/
def headerSet (hs : List (String × String)) (name value : String) :
    List (String × String) :=
  if hs.any (fun p => p.1 == name) then
    hs.map (fun p => if p.1 == name then (name, value) else p)
  else
    hs ++ [(name, value)]

namespace SystemResponse

/-- Method `setText(text, status = 200)`: stores the text as the body and
sets the status.  The template substitution applied to the text
(`assignToVariables`, an external collaborator) is outside this model, so the
stored body is the text itself. -/
def setText (s : SystemResponse) (text : String) (status : Nat := 200) :
    SystemResponse :=
  { s with body := text, status := status }

/-- Method `send(response?)`: returns at once when already responded;
otherwise forces the download content type when requested, snapshots the
status into the init record, builds the `Response` (from the state *before*
the optional string argument is applied — the source calls `setText` only
after constructing `res`), invokes `#respondWith` exactly once, and only then
marks the response as sent. -/
def send (s : SystemResponse) (response : Option SendArg) : SystemResponse :=
  if s.responded then s
  else
    let s₁ :=
      if s.isForceDownload then
        { s with headers := headerSet s.headers "Content-Type" "application/octet-stream" }
      else s
    let s₂ := { s₁ with initStatus := some s₁.status }
    let s₃ :=
      match response with
      | some (.strArg t) => setText s₂ t
      | _ => s₂
    { s₃ with respondCount := s₃.respondCount + 1, responded := true }

/-- Method `redirect(url)`: sets status 302, clears the body, sets the
`Location` header and calls `send()` with no argument. -/
def redirect (s : SystemResponse) (url : String) : SystemResponse :=
  send { s with status := 302, body := "", headers := headerSet s.headers "Location" url }
    none

end SystemResponse

/-- Following the spec's words, for comparison with the source's instance
`send`: nullish (`??`) fallback, under which an argument is used whenever it
is provided, falsy or not. -/
def WebSocketClient.sendNullish (c : WebSocketClient)
    (clients : Option (List ClientCore)) (message : Option Payload)
    (log : SendLog) : WebSocketClient × SendLog :=
  (c, WebSocketClient.send (clients.getD c.sendTargets)
        (message.getD c.message) log)

/-! ## Lemmas about the broadcast loop -/

theorem send_attempts (clients : List ClientCore) (m : Payload) (log : SendLog) :
    (WebSocketClient.send clients m log).attempts
      = log.attempts ++ clients.map (fun c => (c.webSocket.handle, m)) := by
  induction clients generalizing log with
  | nil => simp [WebSocketClient.send]
  | cons c cs ih =>
    show (WebSocketClient.send cs m (socketWrite log c.webSocket m)).attempts = _
    rw [ih]
    simp [socketWrite]

theorem send_delivered (clients : List ClientCore) (m : Payload) (log : SendLog) :
    (WebSocketClient.send clients m log).delivered
      = log.delivered
        ++ (clients.filter (fun c => c.webSocket.isOpen)).map
            (fun c => (c.webSocket.handle, m)) := by
  induction clients generalizing log with
  | nil => simp [WebSocketClient.send]
  | cons c cs ih =>
    show (WebSocketClient.send cs m (socketWrite log c.webSocket m)).delivered = _
    rw [ih]
    by_cases h : c.webSocket.isOpen = true <;>
      simp [socketWrite, h, List.filter_cons]

/-! ## Claim theorems -/

/-- C4: during a broadcast, every target in the list receives its write
attempt, in list order, no matter which targets fail: the attempt log after
`WebSocketClient.send` extends the prior log with one entry per target,
independently of each target's socket state, while delivery succeeds exactly
on the open sockets — a failed write never prevents the attempts that follow
it. -/
theorem send_failure_does_not_stop_broadcast (clients : List ClientCore)
    (m : Payload) (log : SendLog) :
    (WebSocketClient.send clients m log).attempts
      = log.attempts ++ clients.map (fun c => (c.webSocket.handle, m))
  ∧ (WebSocketClient.send clients m log).delivered
      = log.delivered
        ++ (clients.filter (fun c => c.webSocket.isOpen)).map
            (fun c => (c.webSocket.handle, m)) :=
  ⟨send_attempts clients m log, send_delivered clients m log⟩

/-- C5: `send([c1, c2], m)` performs exactly one socket write of `m` to
`c1`'s handle and exactly one to `c2`'s handle, with `c1`'s write first. -/
theorem send_pair_writes_once_each_in_order (c₁ c₂ : ClientCore) (m : Payload)
    (h : c₁.webSocket.handle ≠ c₂.webSocket.handle) :
    (WebSocketClient.send [c₁, c₂] m SendLog.empty).attempts
      = [(c₁.webSocket.handle, m), (c₂.webSocket.handle, m)]
  ∧ ((WebSocketClient.send [c₁, c₂] m SendLog.empty).attempts.filter
      (fun e => e.1 == c₁.webSocket.handle)) = [(c₁.webSocket.handle, m)]
  ∧ ((WebSocketClient.send [c₁, c₂] m SendLog.empty).attempts.filter
      (fun e => e.1 == c₂.webSocket.handle)) = [(c₂.webSocket.handle, m)] := by
  have ha : (WebSocketClient.send [c₁, c₂] m SendLog.empty).attempts
      = [(c₁.webSocket.handle, m), (c₂.webSocket.handle, m)] := by
    rw [send_attempts]; rfl
  refine ⟨ha, ?_, ?_⟩ <;> rw [ha] <;> simp [List.filter_cons, h, Ne.symm h]

/-- C5 witness at two concrete clients with distinct socket handles. -/
theorem send_pair_writes_once_each_in_order_witness :
    (WebSocketClient.send [⟨1, ⟨10, true⟩⟩, ⟨2, ⟨20, false⟩⟩]
        (Payload.str "m") SendLog.empty).attempts
      = [(10, Payload.str "m"), (20, Payload.str "m")]
  ∧ ((WebSocketClient.send [⟨1, ⟨10, true⟩⟩, ⟨2, ⟨20, false⟩⟩]
        (Payload.str "m") SendLog.empty).attempts.filter
      (fun e => e.1 == 10)) = [(10, Payload.str "m")]
  ∧ ((WebSocketClient.send [⟨1, ⟨10, true⟩⟩, ⟨2, ⟨20, false⟩⟩]
        (Payload.str "m") SendLog.empty).attempts.filter
      (fun e => e.1 == 20)) = [(20, Payload.str "m")] :=
  send_pair_writes_once_each_in_order ⟨1, ⟨10, true⟩⟩ ⟨2, ⟨20, false⟩⟩
    (Payload.str "m") (by decide)

/-- C6 counterexample: with a pending message `"m0"`, calling the instance
`send` with the explicitly provided payload `""` writes `"m0"`, not `""`:
the source's `message || this.#message` falls back on a provided falsy
payload, unlike the claimed `payload ?? pendingMessage`. -/
theorem sendInstance_falsy_payload_counterexample :
    (WebSocketClient.sendInstance
        ⟨⟨0, ⟨5, true⟩⟩, "u", [], [], Payload.str "m0", []⟩
        (some [⟨7, ⟨42, true⟩⟩]) (some (Payload.str "")) SendLog.empty).2.attempts
      = [(42, Payload.str "m0")]
  ∧ (WebSocketClient.sendNullish
        ⟨⟨0, ⟨5, true⟩⟩, "u", [], [], Payload.str "m0", []⟩
        (some [⟨7, ⟨42, true⟩⟩]) (some (Payload.str "")) SendLog.empty).2.attempts
      = [(42, Payload.str "")]
  ∧ (Payload.str "m0" ≠ Payload.str "") := by
  refine ⟨rfl, rfl, by decide⟩

/-- C6 (amended): the instance `send` writes to each target in
`targets ?? sendTargets` (array arguments are always truthy, so `||` and `??`
agree on the target list) the payload chosen by JavaScript `||`: the provided
payload when it is present and truthy, and the stored pending message when
the argument is absent or falsy (e.g. the empty string); the receiver is
returned unchanged. -/
theorem sendInstance_amended (c : WebSocketClient)
    (clients : Option (List ClientCore)) (m : Option Payload) (log : SendLog) :
    (WebSocketClient.sendInstance c clients m log).1 = c
  ∧ (WebSocketClient.sendInstance c clients m log).2.attempts
      = log.attempts
        ++ (clients.getD c.sendTargets).map
            (fun t => (t.webSocket.handle,
              match m with
              | none => c.message
              | some p => if p.truthy then p else c.message)) := by
  refine ⟨rfl, ?_⟩
  show (WebSocketClient.send (WebSocketClient.jsOrTargets clients c.sendTargets)
          (WebSocketClient.jsOrPayload m c.message) log).attempts = _
  rw [send_attempts]
  cases clients <;> cases m <;>
    simp [WebSocketClient.jsOrTargets, WebSocketClient.jsOrPayload]

/-- C7: the transient outbound state is changed only by its own setter:
`setMessage` overwrites the pending message and nothing else, `to` overwrites
the target list and nothing else, the instance `send` leaves the whole client
unchanged (sending clears nothing), and the attribute setter touches neither
field. -/
theorem outbound_state_frame (c : WebSocketClient) (m : Payload)
    (ts : List ClientCore) (clients : Option (List ClientCore))
    (m? : Option Payload) (log : SendLog) (k : String) (v : JSVal) :
    (WebSocketClient.setMessage c m).message = m
  ∧ (WebSocketClient.setMessage c m).sendTargets = c.sendTargets
  ∧ (WebSocketClient.setMessage c m).core = c.core
  ∧ (WebSocketClient.setMessage c m).attributes = c.attributes
  ∧ (WebSocketClient.toClients c ts).sendTargets = ts
  ∧ (WebSocketClient.toClients c ts).message = c.message
  ∧ (WebSocketClient.toClients c ts).core = c.core
  ∧ (WebSocketClient.toClients c ts).attributes = c.attributes
  ∧ (WebSocketClient.sendInstance c clients m? log).1 = c
  ∧ (WebSocketClient.setAttribute c k v).message = c.message
  ∧ (WebSocketClient.setAttribute c k v).sendTargets = c.sendTargets :=
  ⟨rfl, rfl, rfl, rfl, rfl, rfl, rfl, rfl, rfl, rfl, rfl⟩

/-- C10: `SystemResponse` sends at most one terminal response: after `send`
the `responded` flag is true; a further `send` returns the state unchanged;
a `redirect` issued after a completed `send` never invokes `#respondWith`
again (the respond count is unchanged); and a `send` on an
already-responded state returns immediately. -/
theorem systemResponse_sends_at_most_once (s : SystemResponse)
    (arg arg₂ : Option SendArg) (url : String) :
    (s.send arg).responded = true
  ∧ (s.send arg).send arg₂ = s.send arg
  ∧ ((s.send arg).redirect url).respondCount = (s.send arg).respondCount
  ∧ (s.responded = true → s.send arg = s) := by
  have h₁ : ∀ (t : SystemResponse) (a : Option SendArg),
      (t.send a).responded = true := by
    intro t a
    by_cases h : t.responded = true <;>
      simp [SystemResponse.send, h]
  have h₂ : ∀ (t : SystemResponse) (a : Option SendArg),
      t.responded = true → t.send a = t := by
    intro t a h
    simp [SystemResponse.send, h]
  refine ⟨h₁ s arg, h₂ _ arg₂ (h₁ s arg), ?_, h₂ s arg⟩
  unfold SystemResponse.redirect
  rw [h₂ _ none (by simpa using h₁ s arg)]

/-- C10 witness: an already-responded state is returned unchanged by a
further `send`. -/
theorem systemResponse_sends_at_most_once_witness :
    SystemResponse.send ⟨true, 200, "ok", [], false, some 200, 1⟩ none
      = ⟨true, 200, "ok", [], false, some 200, 1⟩ :=
  (systemResponse_sends_at_most_once ⟨true, 200, "ok", [], false, some 200, 1⟩
      none none "/u").2.2.2 rfl

/-! ## Lemmas about attribute selection -/

theorem getClientsByAttribute_pair (g : GlobalState) (a b : JSVal) :
    WebSocketClient.getClientsByAttribute g [[("a", a), ("b", b)]]
      = (WebSocketClient.getAllClients g).filter
          (fun c => WebSocketClient.attrTruthy c "a"
                    && WebSocketClient.attrTruthy c "b") := by
  unfold WebSocketClient.getClientsByAttribute
  apply List.filter_congr
  intro c _
  cases h₁ : WebSocketClient.attrTruthy c "a" <;>
    cases h₂ : WebSocketClient.attrTruthy c "b" <;>
      simp [h₁, h₂, List.filter_cons]

theorem getClientsByAttribute_union_mem (g : GlobalState) (a b : JSVal)
    (c : WebSocketClient) :
    c ∈ WebSocketClient.getClientsByAttribute g [[("a", a)], [("b", b)]]
      ↔ c ∈ WebSocketClient.getClientsByAttribute g [[("a", a)]]
        ∨ c ∈ WebSocketClient.getClientsByAttribute g [[("b", b)]] := by
  unfold WebSocketClient.getClientsByAttribute
  simp only [List.mem_filter]
  cases h₁ : WebSocketClient.attrTruthy c "a" <;>
    cases h₂ : WebSocketClient.attrTruthy c "b" <;>
      simp [h₁, h₂, List.filter_cons]

/-- C1: with truthiness matching, `getClientsByAttribute({a:·, b:·})` returns
exactly the registered clients whose attribute bag holds truthy values for
both keys; `getClientsByAttribute({a:·}, {b:·})` contains a client precisely
when one of the two single-set queries matches it (the union of the
independent matches); and, the registry being duplicate-free, each matching
connection appears once in the result. -/
theorem getClientsByAttribute_and_or (g : GlobalState) (a b : JSVal)
    (hnd : (WebSocketClient.getAllClients g).Nodup) :
    WebSocketClient.getClientsByAttribute g [[("a", a), ("b", b)]]
      = (WebSocketClient.getAllClients g).filter
          (fun c => WebSocketClient.attrTruthy c "a"
                    && WebSocketClient.attrTruthy c "b")
  ∧ (∀ c, c ∈ WebSocketClient.getClientsByAttribute g [[("a", a)], [("b", b)]]
      ↔ c ∈ WebSocketClient.getClientsByAttribute g [[("a", a)]]
        ∨ c ∈ WebSocketClient.getClientsByAttribute g [[("b", b)]])
  ∧ (WebSocketClient.getClientsByAttribute g [[("a", a)], [("b", b)]]).Nodup := by
  refine ⟨getClientsByAttribute_pair g a b,
          fun c => getClientsByAttribute_union_mem g a b c, ?_⟩
  unfold WebSocketClient.getClientsByAttribute
  exact hnd.filter _

/-- C1 witness: a three-client registry where client 1 carries both
attributes, client 0 only `a`, client 2 a falsy `b`. -/
theorem getClientsByAttribute_and_or_witness :
    WebSocketClient.getClientsByAttribute
        ⟨3, [(0, ⟨⟨0, ⟨5, true⟩⟩, "u", [], [("a", .vNum 1)], .str "", []⟩),
             (1, ⟨⟨1, ⟨6, true⟩⟩, "u", [], [("a", .vNum 1), ("b", .vNum 2)], .str "", []⟩),
             (2, ⟨⟨2, ⟨9, true⟩⟩, "u", [], [("b", .vNum 0)], .str "", []⟩)]⟩
        [[("a", .vNum 1), ("b", .vNum 2)]]
      = (WebSocketClient.getAllClients
          ⟨3, [(0, ⟨⟨0, ⟨5, true⟩⟩, "u", [], [("a", .vNum 1)], .str "", []⟩),
               (1, ⟨⟨1, ⟨6, true⟩⟩, "u", [], [("a", .vNum 1), ("b", .vNum 2)], .str "", []⟩),
               (2, ⟨⟨2, ⟨9, true⟩⟩, "u", [], [("b", .vNum 0)], .str "", []⟩)]⟩).filter
          (fun c => WebSocketClient.attrTruthy c "a"
                    && WebSocketClient.attrTruthy c "b")
  ∧ (∀ c, c ∈ WebSocketClient.getClientsByAttribute
        ⟨3, [(0, ⟨⟨0, ⟨5, true⟩⟩, "u", [], [("a", .vNum 1)], .str "", []⟩),
             (1, ⟨⟨1, ⟨6, true⟩⟩, "u", [], [("a", .vNum 1), ("b", .vNum 2)], .str "", []⟩),
             (2, ⟨⟨2, ⟨9, true⟩⟩, "u", [], [("b", .vNum 0)], .str "", []⟩)]⟩
        [[("a", .vNum 1)], [("b", .vNum 2)]]
      ↔ c ∈ WebSocketClient.getClientsByAttribute
        ⟨3, [(0, ⟨⟨0, ⟨5, true⟩⟩, "u", [], [("a", .vNum 1)], .str "", []⟩),
             (1, ⟨⟨1, ⟨6, true⟩⟩, "u", [], [("a", .vNum 1), ("b", .vNum 2)], .str "", []⟩),
             (2, ⟨⟨2, ⟨9, true⟩⟩, "u", [], [("b", .vNum 0)], .str "", []⟩)]⟩
        [[("a", .vNum 1)]]
        ∨ c ∈ WebSocketClient.getClientsByAttribute
        ⟨3, [(0, ⟨⟨0, ⟨5, true⟩⟩, "u", [], [("a", .vNum 1)], .str "", []⟩),
             (1, ⟨⟨1, ⟨6, true⟩⟩, "u", [], [("a", .vNum 1), ("b", .vNum 2)], .str "", []⟩),
             (2, ⟨⟨2, ⟨9, true⟩⟩, "u", [], [("b", .vNum 0)], .str "", []⟩)]⟩
        [[("b", .vNum 2)]])
  ∧ (WebSocketClient.getClientsByAttribute
        ⟨3, [(0, ⟨⟨0, ⟨5, true⟩⟩, "u", [], [("a", .vNum 1)], .str "", []⟩),
             (1, ⟨⟨1, ⟨6, true⟩⟩, "u", [], [("a", .vNum 1), ("b", .vNum 2)], .str "", []⟩),
             (2, ⟨⟨2, ⟨9, true⟩⟩, "u", [], [("b", .vNum 0)], .str "", []⟩)]⟩
        [[("a", .vNum 1)], [("b", .vNum 2)]]).Nodup :=
  getClientsByAttribute_and_or
    ⟨3, [(0, ⟨⟨0, ⟨5, true⟩⟩, "u", [], [("a", .vNum 1)], .str "", []⟩),
         (1, ⟨⟨1, ⟨6, true⟩⟩, "u", [], [("a", .vNum 1), ("b", .vNum 2)], .str "", []⟩),
         (2, ⟨⟨2, ⟨9, true⟩⟩, "u", [], [("b", .vNum 0)], .str "", []⟩)]⟩
    (.vNum 1) (.vNum 2) (by decide)

/-! ## Lemmas about id assignment along lifecycle traces -/

theorem step_lastId_le (g : GlobalState) (op : RegOp) :
    g.lastInsertedId ≤ (g.step op).lastInsertedId := by
  cases op <;>
    simp [GlobalState.step, WebSocketClient.construct,
      WebSocketClient.unregister]

theorem assignedIds_lower_bound (ops : List RegOp) :
    ∀ g : GlobalState, ∀ x ∈ assignedIds g ops, g.lastInsertedId ≤ x := by
  induction ops with
  | nil => intro g x hx; simp [assignedIds] at hx
  | cons op ops ih =>
    intro g x hx
    cases op with
    | openConn ws url vars =>
      simp only [assignedIds, List.mem_cons] at hx
      rcases hx with h | h
      · omega
      · have h₁ := ih (g.step (.openConn ws url vars)) x h
        have h₂ := step_lastId_le g (.openConn ws url vars)
        omega
    | closeConn n =>
      simp only [assignedIds] at hx
      have h₁ := ih (g.step (.closeConn n)) x hx
      have h₂ := step_lastId_le g (.closeConn n)
      omega

theorem assignedIds_sorted (ops : List RegOp) :
    ∀ g : GlobalState, (assignedIds g ops).Sorted (· < ·) := by
  induction ops with
  | nil => intro g; simp [assignedIds]
  | cons op ops ih =>
    intro g
    cases op with
    | openConn ws url vars =>
      simp only [assignedIds]
      rw [List.sorted_cons]
      refine ⟨fun b hb => ?_, ih _⟩
      have h₁ := assignedIds_lower_bound ops (g.step (.openConn ws url vars)) b hb
      have h₂ : (g.step (.openConn ws url vars)).lastInsertedId
          = g.lastInsertedId + 1 := rfl
      omega
    | closeConn n =>
      simp only [assignedIds]
      exact ih _

/-- C8: along any trace of socket-open and socket-close events, the ids
handed out by the constructor are strictly increasing (hence unique for the
process lifetime, and never reassigned after a close, which leaves the
counter untouched); each id is the value of `lastInsertedId` at construction,
which the constructor then increments. -/
theorem client_ids_monotone_unique (g : GlobalState) (ops : List RegOp)
    (ws : Socket) (url : String) (vars : List (String × String)) (n : Nat) :
    (assignedIds g ops).Sorted (· < ·)
  ∧ (assignedIds g ops).Nodup
  ∧ (WebSocketClient.construct g ws url vars).1.core.id = g.lastInsertedId
  ∧ (WebSocketClient.construct g ws url vars).2.lastInsertedId
      = g.lastInsertedId + 1
  ∧ (WebSocketClient.unregister g n).lastInsertedId = g.lastInsertedId :=
  ⟨assignedIds_sorted ops g, (assignedIds_sorted ops g).nodup, rfl, rfl, rfl⟩

/-! ## Lemmas about the registry map -/

theorem del_set_fresh {α : Type} (m : ObjMap α) (k : Nat) (v : α)
    (h : ∀ e ∈ m, e.1 ≠ k) : ObjMap.del (ObjMap.set m k v) k = m := by
  induction m with
  | nil => simp [ObjMap.set, ObjMap.del]
  | cons e rest ih =>
    have he : e.1 ≠ k := h e (List.mem_cons_self e rest)
    have hrest : ∀ x ∈ rest, x.1 ≠ k := fun x hx => h x (List.mem_cons_of_mem e hx)
    have hfilter : List.filter (fun x => x.1 != k) rest = rest :=
      List.filter_eq_self.mpr (fun x hx => by simpa using hrest x hx)
    by_cases h₁ : k < e.1
    · simp [ObjMap.set, h₁, ObjMap.del, List.filter_cons, hfilter, bne_iff_ne, he]
    · by_cases h₂ : k = e.1
      · exact absurd h₂.symm he
      · have hr := ih hrest
        simp only [ObjMap.set, if_neg h₁, if_neg h₂]
        simp only [ObjMap.del, List.filter_cons] at hr ⊢
        simp [bne_iff_ne, he, hr]

/-- C9: constructing (hence registering) a client on a fresh id and then
unregistering that id returns the registry to its prior size, and looking up
any id with no registry entry yields an absent value rather than an error. -/
theorem register_unregister_roundtrip (g : GlobalState) (ws : Socket)
    (url : String) (vars : List (String × String))
    (hfresh : ∀ e ∈ g.list, e.1 < g.lastInsertedId) :
    WebSocketClient.concurrentConnections
        (WebSocketClient.unregister (WebSocketClient.construct g ws url vars).2
          (WebSocketClient.construct g ws url vars).1.core.id)
      = WebSocketClient.concurrentConnections g
  ∧ ∀ n, (∀ e ∈ g.list, e.1 ≠ n) → WebSocketClient.getClientById g n = none := by
  constructor
  · simp only [WebSocketClient.concurrentConnections, WebSocketClient.unregister,
      WebSocketClient.construct]
    rw [del_set_fresh]
    intro e he
    exact Nat.ne_of_lt (hfresh e he)
  · intro n hn
    simp only [WebSocketClient.getClientById, ObjMap.get?]
    rw [List.find?_eq_none.mpr]
    · rfl
    · intro x hx
      simpa using hn x hx

/-- C9 witness: a one-client registry with a fresh next id. -/
theorem register_unregister_roundtrip_witness :
    WebSocketClient.concurrentConnections
        (WebSocketClient.unregister
          (WebSocketClient.construct
            ⟨1, [(0, ⟨⟨0, ⟨3, true⟩⟩, "u", [], [], .str "", []⟩)]⟩
            ⟨4, true⟩ "v" []).2
          (WebSocketClient.construct
            ⟨1, [(0, ⟨⟨0, ⟨3, true⟩⟩, "u", [], [], .str "", []⟩)]⟩
            ⟨4, true⟩ "v" []).1.core.id)
      = WebSocketClient.concurrentConnections
          ⟨1, [(0, ⟨⟨0, ⟨3, true⟩⟩, "u", [], [], .str "", []⟩)]⟩
  ∧ WebSocketClient.getClientById
      ⟨1, [(0, ⟨⟨0, ⟨3, true⟩⟩, "u", [], [], .str "", []⟩)]⟩ 5 = none :=
  ⟨(register_unregister_roundtrip
      ⟨1, [(0, ⟨⟨0, ⟨3, true⟩⟩, "u", [], [], .str "", []⟩)]⟩
      ⟨4, true⟩ "v" [] (by decide)).1,
   (register_unregister_roundtrip
      ⟨1, [(0, ⟨⟨0, ⟨3, true⟩⟩, "u", [], [], .str "", []⟩)]⟩
      ⟨4, true⟩ "v" [] (by decide)).2 5 (by decide)⟩

/-! ## Lemmas about route registration -/

theorem mem_dedupFirst (x : String) : ∀ l : List String,
    x ∈ dedupFirst l ↔ x ∈ l := by
  intro l
  induction l with
  | nil => simp [dedupFirst]
  | cons y ys ih =>
    simp only [dedupFirst, List.mem_cons, List.mem_filter, decide_eq_true_eq]
    by_cases h : x = y
    · simp [h]
    · simp [h, ih]

/-- C3: after construction, a route's match-key array always contains its
canonical path; and when no alias is already owned by another entry, the
match-key array is exactly the deduplicated union of the aliases and the
canonical path. -/
theorem route_matchKeys_after_construction (table : List Route) (path : String)
    (aliases : List String) :
    path ∈ ((RouteTable.register table path aliases).1).urls
  ∧ ((∀ a ∈ aliases, RouteTable.keyOwnedByOther table path a = false) →
      ((RouteTable.register table path aliases).1).urls
        = dedupFirst (aliases ++ [path])) := by
  constructor
  · show path ∈ (dedupFirst (aliases ++ [path])).filter _
    rw [List.mem_filter]
    exact ⟨(mem_dedupFirst path _).mpr (by simp), by simp⟩
  · intro hun
    show (dedupFirst (aliases ++ [path])).filter _ = _
    apply List.filter_eq_self.mpr
    intro u hu
    have hmem : u ∈ aliases ++ [path] := (mem_dedupFirst u _).mp hu
    rcases List.mem_append.mp hmem with h | h
    · simp [hun u h]
    · simp only [List.mem_singleton] at h
      simp [h]

/-- C3 witness: a fresh registration on an empty table. -/
theorem route_matchKeys_after_construction_witness :
    "/contact.html" ∈ ((RouteTable.register [] "/contact.html" ["/", "/top"]).1).urls
  ∧ ((RouteTable.register [] "/contact.html" ["/", "/top"]).1).urls
      = dedupFirst (["/", "/top"] ++ ["/contact.html"]) :=
  ⟨(route_matchKeys_after_construction [] "/contact.html" ["/", "/top"]).1,
   (route_matchKeys_after_construction [] "/contact.html" ["/", "/top"]).2
     (by decide)⟩

/-- C2: registering a route whose alias is already owned by a previously
registered route drops that alias from the new route (first registration
wins): the new match-key array avoids the conflicting key and holds only
unclaimed aliases plus the canonical path, resolving the conflicting key
still yields the original owner, and each unclaimed alias resolves to the
newly registered route. -/
theorem route_conflicting_alias_dropped (table : List Route) (path key : String)
    (aliases : List String) (owner : Route)
    (hov : RouteTable.resolve table key = some owner)
    (hop : owner.path ≠ path)
    (hkp : key ≠ path)
    (hfresh : ∀ e ∈ table, e.path ≠ path) :
    key ∉ ((RouteTable.register table path aliases).1).urls
  ∧ (∀ u ∈ ((RouteTable.register table path aliases).1).urls,
      u = path ∨ (u ∈ aliases ∧ RouteTable.keyOwnedByOther table path u = false))
  ∧ RouteTable.resolve ((RouteTable.register table path aliases).2) key
      = some owner
  ∧ (∀ a ∈ aliases, (∀ e ∈ table, a ∉ e.urls) →
      RouteTable.resolve ((RouteTable.register table path aliases).2) a
        = some ((RouteTable.register table path aliases).1)) := by
  have howner_mem : owner ∈ table := List.mem_of_find?_eq_some hov
  have howner_key : key ∈ owner.urls := by
    have h := List.find?_some hov
    simpa using h
  have hany : table.any (fun e => e.path == path) = false := by
    rw [List.any_eq_false]
    intro e he
    simpa using hfresh e he
  have happend : (RouteTable.register table path aliases).2
      = table ++ [(RouteTable.register table path aliases).1] := by
    simp [RouteTable.register, hany]
  have howned : RouteTable.keyOwnedByOther table path key = true := by
    rw [RouteTable.keyOwnedByOther, List.any_eq_true]
    exact ⟨owner, howner_mem, by simp [hop, howner_key]⟩
  refine ⟨?_, ?_, ?_, ?_⟩
  · intro hmem
    have hp := (List.mem_filter.mp hmem).2
    simp [hkp, howned] at hp
  · intro u hu
    have hc := (List.mem_filter.mp hu).1
    have hp := (List.mem_filter.mp hu).2
    by_cases hup : u = path
    · exact Or.inl hup
    · refine Or.inr ⟨?_, ?_⟩
      · rcases List.mem_append.mp ((mem_dedupFirst u _).mp hc) with h | h
        · exact h
        · simp only [List.mem_singleton] at h
          exact absurd h hup
      · have hp₂ : u = path ∨ RouteTable.keyOwnedByOther table path u = false := by
          simpa using hp
        rcases hp₂ with h | h
        · exact absurd h hup
        · exact h
  · rw [happend]
    simp only [RouteTable.resolve] at hov ⊢
    rw [List.find?_append, hov]
    rfl
  · intro a ha hun
    rw [happend]
    simp only [RouteTable.resolve]
    rw [List.find?_append]
    have hnone : table.find? (fun r => r.urls.contains a) = none := by
      rw [List.find?_eq_none]
      intro r hr
      simpa using hun r hr
    rw [hnone]
    have haurls : a ∈ ((RouteTable.register table path aliases).1).urls := by
      show a ∈ (dedupFirst (aliases ++ [path])).filter _
      rw [List.mem_filter]
      refine ⟨(mem_dedupFirst a _).mpr (List.mem_append_left _ ha), ?_⟩
      have hnoown : RouteTable.keyOwnedByOther table path a = false := by
        rw [RouteTable.keyOwnedByOther, List.any_eq_false]
        intro r hr
        simp [hun r hr]
      simp [hnoown]
    simp [List.find?_cons, haurls]

/-- C2 witness: the spec's scenario — after `/a.html` claims `/shared`,
registering `/b.html` with aliases `/shared` and `/b2` keeps `/shared` with
`/a.html` and resolves `/b2` to the new entry. -/
theorem route_conflicting_alias_dropped_witness :
    "/shared" ∉ ((RouteTable.register [⟨"/a.html", ["/shared", "/a.html"]⟩]
        "/b.html" ["/shared", "/b2"]).1).urls
  ∧ RouteTable.resolve ((RouteTable.register [⟨"/a.html", ["/shared", "/a.html"]⟩]
        "/b.html" ["/shared", "/b2"]).2) "/shared"
      = some ⟨"/a.html", ["/shared", "/a.html"]⟩
  ∧ RouteTable.resolve ((RouteTable.register [⟨"/a.html", ["/shared", "/a.html"]⟩]
        "/b.html" ["/shared", "/b2"]).2) "/b2"
      = some ((RouteTable.register [⟨"/a.html", ["/shared", "/a.html"]⟩]
        "/b.html" ["/shared", "/b2"]).1) :=
  ⟨(route_conflicting_alias_dropped [⟨"/a.html", ["/shared", "/a.html"]⟩]
      "/b.html" "/shared" ["/shared", "/b2"] ⟨"/a.html", ["/shared", "/a.html"]⟩
      (by decide) (by decide) (by decide) (by decide)).1,
   (route_conflicting_alias_dropped [⟨"/a.html", ["/shared", "/a.html"]⟩]
      "/b.html" "/shared" ["/shared", "/b2"] ⟨"/a.html", ["/shared", "/a.html"]⟩
      (by decide) (by decide) (by decide) (by decide)).2.2.1,
   (route_conflicting_alias_dropped [⟨"/a.html", ["/shared", "/a.html"]⟩]
      "/b.html" "/shared" ["/shared", "/b2"] ⟨"/a.html", ["/shared", "/a.html"]⟩
      (by decide) (by decide) (by decide) (by decide)).2.2.2 "/b2"
      (by decide) (by decide)⟩

end Puddle
